import Mathlib

/-!
Shallow embedding of `src/server.js` of the video-keyframe-api repository.

Paths are modelled as lists of segments of an absolute filesystem path,
`__dirname` being the directory `/app`.  `path.join` followed by Node's
normalisation is modelled by `normSegs`, which drops empty and `"."`
segments and lets `".."` pop the previous segment (popping at the root is
a no-op, as for absolute paths in Node).  The filesystem is a pair of
lists: existing regular files and existing directories.

The HTTP handlers of `server.js` are embedded as pure functions from the
request data, the outcomes of the two external operations (the axios
download and the ffmpeg run) and the generated unique names, to a
response paired with the final filesystem.
-/

namespace VideoKeyframeApi

abbrev Seg := String
abbrev FsPath := List Seg

/-- `__dirname` of server.js, modelled as the absolute directory `/app`. -/
def dirname : FsPath := ["app"]

/-- `path.join(__dirname, "temp")`: the transient staging area. -/
def tempDir : FsPath := dirname ++ ["temp"]

/-- `path.join(__dirname, "uploads")`: the output root, one subdirectory per videoId. -/
def uploadsRoot : FsPath := dirname ++ ["uploads"]

/-- Split a string on the `/` separator character (segments of a path-like string). -/
def splitSegsAux : List Char → List Char → List String
  | [], acc => [String.mk acc]
  | c :: rest, acc =>
    if c = '/' then String.mk acc :: splitSegsAux rest []
    else splitSegsAux rest (acc ++ [c])

def splitSegs (s : String) : List String := splitSegsAux s.toList []

/-- Node path normalisation on the segments of an absolute path: `""` and `"."`
segments vanish, `".."` pops the previous segment (and is dropped at the root). -/
def normSegs (segs : List String) : FsPath :=
  segs.foldl (fun acc s =>
    if s = "" ∨ s = "." then acc
    else if s = ".." then acc.dropLast
    else acc ++ [s]) []

/-- `path.join(__dirname, "uploads", videoId, frameName)` of the GET handler. -/
def framePath (videoId frameName : String) : FsPath :=
  normSegs (dirname ++ ["uploads"] ++ splitSegs videoId ++ splitSegs frameName)

/-- `path.join(__dirname, "uploads", videoId)` of the DELETE handler. -/
def videoDir (videoId : String) : FsPath :=
  normSegs (dirname ++ ["uploads"] ++ splitSegs videoId)

/-- The filesystem state: existing regular files and existing directories. -/
structure FS where
  files : List FsPath
  dirs : List FsPath
deriving DecidableEq

/-- Creating a (possibly empty) regular file, as `fsSync.createWriteStream` does. -/
def createFile (fs : FS) (p : FsPath) : FS :=
  { fs with files := p :: fs.files }

/-- `fs.unlink` wrapped in the `cleanup` helper (errors are swallowed). -/
def unlink (fs : FS) (p : FsPath) : FS :=
  { fs with files := fs.files.filter (fun q => q ≠ p) }

/-- `fs.mkdir(p, {recursive:true})`. -/
def mkdirp (fs : FS) (p : FsPath) : FS :=
  { fs with dirs := p :: fs.dirs }

/-- `fs.rm(p, {recursive:true, force:true})`: removes the directory and
everything below it; succeeds also when nothing exists there. -/
def rmRecursive (fs : FS) (p : FsPath) : FS :=
  { files := fs.files.filter (fun q => ¬ p.isPrefixOf q),
    dirs := fs.dirs.filter (fun q => ¬ p.isPrefixOf q) }

/-! ### extractKeyframes: filtering and ordering of the produced frames -/

/-- `parseInt(f.match(/\d+/)[0])`: the first maximal run of digits in the name. -/
def frameIndex (s : String) : Nat :=
  ((s.toList.dropWhile (fun c => ¬ c.isDigit)).takeWhile (fun c => c.isDigit)).foldl
    (fun a c => a * 10 + (c.toNat - 48)) 0

/-- The filter `f.startsWith("frame_")` of the `end` handler. -/
def isFrameFile (s : String) : Bool :=
  List.isPrefixOf "frame_".toList s.toList

/-- Whether the name contains a digit at all (the JS comparator is only
defined on such names; ffmpeg's `frame_%d.jpg` scheme always provides one). -/
def hasDigit (s : String) : Bool := s.toList.any (fun c => c.isDigit)

/-- The JS comparator `(a, b) => numA - numB`: order by embedded numeric index. -/
def frameLe (a b : String) : Prop := frameIndex a ≤ frameIndex b

instance : DecidableRel frameLe := fun a b => Nat.decLe (frameIndex a) (frameIndex b)

instance : IsTotal String frameLe := ⟨fun a b => Nat.le_total (frameIndex a) (frameIndex b)⟩

instance : IsTrans String frameLe := ⟨fun _ _ _ => Nat.le_trans⟩

/-- The `end` handler of `extractKeyframes`: filter the directory listing to
`frame_`-named files and sort by the embedded numeric index ascending. -/
def sortFrameFiles (files : List String) : List String :=
  List.insertionSort frameLe (files.filter isFrameFile)

/-! ### Request, external outcomes and responses -/

/-- The request data the POST handler consults: `req.body.interval`,
`req.body.videoUrl` and the multer-staged upload `req.file` (its file name
inside the temp directory), each possibly absent. -/
structure Request where
  interval : Option String
  videoUrl : Option String
  file : Option String
deriving DecidableEq

/-- Outcome of the axios download in `downloadVideo`.  In both cases the
write stream has already created the destination file; on failure the
promise rejects and the (possibly partially written) file stays behind. -/
inductive DlResult
  | ok
  | fail (msg : String)
deriving DecidableEq

/-- Outcome of the ffmpeg run: the names written into the output directory
on success, or an error message together with whatever names ffmpeg had
already written before failing. -/
inductive ExResult
  | ok (frames : List String)
  | err (msg : String) (leftover : List String)
deriving DecidableEq

/-- The JSON response of the POST and DELETE handlers. -/
structure Response where
  status : Nat
  success : Bool
  error : Option String
  details : Option String
  keyFrames : Option (List String)
  frameCount : Option Nat
deriving DecidableEq

def errorResponse (status : Nat) (err : String) (details : Option String) : Response :=
  { status := status, success := false, error := some err, details := details,
    keyFrames := none, frameCount := none }

/-- The GET /frames handler's outcome: raw file bytes or the 404 JSON body. -/
inductive GetResponse
  | file (p : FsPath)
  | notFound
deriving DecidableEq

/-! ### Interval parsing: `parseInt(req.body.interval) || 5` -/

/-- Value of a leading run of decimal digits; `none` when there is none
(JS `parseInt` then yields `NaN`). -/
def digitsVal (cs : List Char) : Option Nat :=
  let ds := cs.takeWhile (fun c => c.isDigit)
  if ds.isEmpty then none
  else some (ds.foldl (fun a c => a * 10 + (c.toNat - 48)) 0)

/-- JS `parseInt` (radix 10) on a string: optional leading spaces and sign,
then a leading run of digits; `none` models `NaN`. -/
def jsParseInt (s : String) : Option Int :=
  match s.toList.dropWhile (fun c => c = ' ') with
  | '-' :: rest => (digitsVal rest).map (fun n => -(n : Int))
  | '+' :: rest => (digitsVal rest).map (fun n => (n : Int))
  | cs => (digitsVal cs).map (fun n => (n : Int))

/-- `const interval = parseInt(req.body.interval) || 5`: an absent field,
an unparseable value (`NaN`) and a parse result of `0` all fall back to 5. -/
def effInterval (i : Option String) : Int :=
  match i with
  | none => 5
  | some s =>
    match jsParseInt s with
    | none => 5
    | some v => if v = 0 then 5 else v

/-! ### The POST /extract-keyframes handler -/

def baseUrl : String := "http://localhost:3000"

/-- URL materialisation: `baseUrl + "/frames/" + videoId + "/" + frameName`. -/
def frameUrl (vid f : String) : String :=
  baseUrl ++ "/frames/" ++ vid ++ "/" ++ f

/-- ffmpeg writing its output files into the output directory. -/
def writeFrames (fs : FS) (d : FsPath) (names : List String) : FS :=
  names.foldl (fun acc f => createFile acc (d ++ [f])) fs

/-- `req.body.videoUrl` truthiness check of the source dispatch. -/
def hasUrl (req : Request) : Bool :=
  match req.videoUrl with
  | some u => u ≠ ""
  | none => false

/-- The path assigned to the handler's `videoPath` variable once acquisition
has succeeded: the freshly downloaded file on the URL branch, the
multer-staged upload otherwise. -/
def stagedPath (req : Request) (dlName : String) : FsPath :=
  if hasUrl req then tempDir ++ [dlName ++ ".mp4"]
  else
    match req.file with
    | some n => tempDir ++ [n]
    | none => []

/-- The tail of the POST handler after `videoPath` has been assigned:
allocate the output directory, run ffmpeg, on error remove the output
directory (catch block) and on every exit unlink `videoPath` (finally). -/
def runExtraction (fs : FS) (videoPath : FsPath) (vid : String) (ex : ExResult) :
    Response × FS :=
  let outDir := uploadsRoot ++ [vid]
  let fs := mkdirp fs outDir
  match ex with
  | .err msg leftover =>
    let fs := writeFrames fs outDir leftover
    let fs := rmRecursive fs outDir
    let fs := unlink fs videoPath
    (errorResponse 500 "Failed to extract keyframes" (some ("FFmpeg error: " ++ msg)), fs)
  | .ok frames =>
    let fs := writeFrames fs outDir frames
    let urls := (sortFrameFiles frames).map (frameUrl vid)
    let fs := unlink fs videoPath
    ({ status := 200, success := true, error := none, details := none,
       keyFrames := some urls, frameCount := some urls.length }, fs)

/-- The POST /extract-keyframes handler.  `dlName` and `vid` are the uuids
generated for the downloaded file and the output directory; `dl` and `ex`
are the outcomes of the download and of the ffmpeg run. -/
def postExtractKeyframes (fs : FS) (req : Request) (dl : DlResult) (ex : ExResult)
    (dlName vid : String) : Response × FS :=
  if effInterval req.interval < 1 ∨ effInterval req.interval > 60 then
    (errorResponse 400 "Interval must be between 1 and 60 seconds" none, fs)
  else if hasUrl req then
    let dlPath := tempDir ++ [dlName ++ ".mp4"]
    let fs := createFile fs dlPath
    match dl with
    | .fail msg =>
      (errorResponse 400 "Failed to download video from URL" (some msg), fs)
    | .ok => runExtraction fs dlPath vid ex
  else
    match req.file with
    | some n => runExtraction fs (tempDir ++ [n]) vid ex
    | none =>
      (errorResponse 400 "Either videoUrl or video file must be provided" none, fs)

/-! ### The GET and DELETE /frames handlers -/

/-- GET /frames/:videoId/:frameName: join the parameters under the uploads
root, serve the file when it exists, else answer 404. -/
def getFrame (fs : FS) (videoId frameName : String) : GetResponse :=
  if framePath videoId frameName ∈ fs.files then .file (framePath videoId frameName)
  else .notFound

/-- DELETE /frames/:videoId: recursively and forcibly remove the joined
directory and answer `{success:true}` with status 200. -/
def deleteFrames (fs : FS) (videoId : String) : Response × FS :=
  ({ status := 200, success := true, error := none, details := none,
     keyFrames := none, frameCount := none },
   rmRecursive fs (videoDir videoId))

/-- Acquisition succeeded, so the handler's `videoPath` variable was
assigned: either the URL branch was taken and the download resolved, or
there is no (truthy) URL and an uploaded file is present. -/
def acquired (req : Request) (dl : DlResult) : Prop :=
  (hasUrl req = true ∧ dl = .ok) ∨ (hasUrl req = false ∧ req.file.isSome)

instance (req : Request) (dl : DlResult) : Decidable (acquired req dl) := by
  unfold acquired; infer_instance

/-- A plain single path segment: nonempty, not a dot-reference and free of
the separator character. -/
def plainSeg (s : String) : Prop :=
  s ≠ "" ∧ s ≠ "." ∧ s ≠ ".." ∧ '/' ∉ s.toList

instance : DecidablePred plainSeg := fun s => by
  unfold plainSeg; infer_instance

/-!
## Helper lemmas
-/

theorem writeFrames_cons (fs : FS) (d : FsPath) (a : String) (as : List String) :
    writeFrames fs d (a :: as) = writeFrames (createFile fs (d ++ [a])) d as := rfl

theorem writeFrames_dirs (fs : FS) (d : FsPath) (names : List String) :
    (writeFrames fs d names).dirs = fs.dirs := by
  induction names generalizing fs with
  | nil => rfl
  | cons a as ih => exact (ih (createFile fs (d ++ [a]))).trans rfl

theorem writeFrames_files (fs : FS) (d : FsPath) (names : List String) :
    (writeFrames fs d names).files = (names.map (fun f => d ++ [f])).reverse ++ fs.files := by
  induction names generalizing fs with
  | nil => rfl
  | cons a as ih =>
    rw [writeFrames_cons, ih]
    simp [createFile]

theorem mem_writeFrames (fs : FS) (d : FsPath) (names : List String) (p : FsPath) :
    p ∈ (writeFrames fs d names).files ↔ (∃ f ∈ names, d ++ [f] = p) ∨ p ∈ fs.files := by
  rw [writeFrames_files]
  simp

/-- Under a valid interval and successful acquisition, the POST handler is
the extraction tail applied to the staged video path. -/
theorem postExtractKeyframes_acquired (fs : FS) (req : Request) (dl : DlResult)
    (ex : ExResult) (dlName vid : String)
    (hi : ¬ (effInterval req.interval < 1 ∨ effInterval req.interval > 60))
    (ha : acquired req dl) :
    postExtractKeyframes fs req dl ex dlName vid =
      runExtraction
        (if hasUrl req then createFile fs (tempDir ++ [dlName ++ ".mp4"]) else fs)
        (stagedPath req dlName) vid ex := by
  rcases ha with ⟨hu, hdl⟩ | ⟨hu, hf⟩
  · subst hdl
    simp [postExtractKeyframes, stagedPath, hi, hu]
  · obtain ⟨n, hn⟩ := Option.isSome_iff_exists.mp hf
    simp [postExtractKeyframes, stagedPath, hi, hu, hn]

theorem runExtraction_err_fst (fs : FS) (vp : FsPath) (vid msg : String)
    (leftover : List String) :
    (runExtraction fs vp vid (.err msg leftover)).1 =
      errorResponse 500 "Failed to extract keyframes"
        (some ("FFmpeg error: " ++ msg)) := rfl

theorem runExtraction_err_files (fs : FS) (vp : FsPath) (vid msg : String)
    (leftover : List String) (p : FsPath)
    (hp : p ∈ (runExtraction fs vp vid (.err msg leftover)).2.files) :
    ¬ (uploadsRoot ++ [vid]) <+: p ∧ p ≠ vp := by
  simp [runExtraction, unlink, rmRecursive, List.mem_filter] at hp
  exact ⟨hp.2.2, hp.2.1⟩

theorem runExtraction_err_dirs (fs : FS) (vp : FsPath) (vid msg : String)
    (leftover : List String) (d : FsPath)
    (hd : d ∈ (runExtraction fs vp vid (.err msg leftover)).2.dirs) :
    ¬ (uploadsRoot ++ [vid]) <+: d := by
  simp [runExtraction, unlink, rmRecursive, List.mem_filter] at hd
  exact hd.2

theorem runExtraction_ok_fst (fs : FS) (vp : FsPath) (vid : String)
    (frames : List String) :
    (runExtraction fs vp vid (.ok frames)).1 =
      { status := 200, success := true, error := none, details := none,
        keyFrames := some ((sortFrameFiles frames).map (frameUrl vid)),
        frameCount := some ((sortFrameFiles frames).map (frameUrl vid)).length } := rfl

theorem runExtraction_ok_dirs (fs : FS) (vp : FsPath) (vid : String)
    (frames : List String) :
    (runExtraction fs vp vid (.ok frames)).2.dirs = (uploadsRoot ++ [vid]) :: fs.dirs := by
  simp [runExtraction, unlink, writeFrames_dirs, mkdirp]

theorem runExtraction_ok_staged_gone (fs : FS) (vp : FsPath) (vid : String)
    (frames : List String) :
    vp ∉ (runExtraction fs vp vid (.ok frames)).2.files := by
  simp [runExtraction, unlink, List.mem_filter]

theorem runExtraction_ok_frame_mem (fs : FS) (vp : FsPath) (vid : String)
    (frames : List String) (f : String) (hf : f ∈ frames)
    (hne : (uploadsRoot ++ [vid]) ++ [f] ≠ vp) :
    (uploadsRoot ++ [vid]) ++ [f] ∈ (runExtraction fs vp vid (.ok frames)).2.files := by
  simp [runExtraction, unlink, List.mem_filter, mem_writeFrames]
  exact ⟨Or.inl hf, hne⟩

theorem splitSegsAux_no_slash (cs : List Char) (acc : List Char) (h : '/' ∉ cs) :
    splitSegsAux cs acc = [String.mk (acc ++ cs)] := by
  induction cs generalizing acc with
  | nil => simp [splitSegsAux]
  | cons c rest ih =>
    simp only [List.mem_cons, not_or] at h
    rw [splitSegsAux, if_neg (fun hc => h.1 hc.symm), ih (acc ++ [c]) h.2]
    simp

theorem splitSegs_plain (s : String) (h : '/' ∉ s.toList) : splitSegs s = [s] := by
  unfold splitSegs
  rw [splitSegsAux_no_slash _ _ h, List.nil_append]
  rfl

theorem normSegs_append_plain (xs : List String) (s : String)
    (h0 : s ≠ "") (h1 : s ≠ ".") (h2 : s ≠ "..") :
    normSegs (xs ++ [s]) = normSegs xs ++ [s] := by
  unfold normSegs
  rw [List.foldl_append]
  simp [h0, h1, h2]

theorem framePath_plain (vid name : String) (h : plainSeg name) :
    framePath vid name = videoDir vid ++ [name] := by
  unfold framePath videoDir
  rw [splitSegs_plain name h.2.2.2,
    show dirname ++ ["uploads"] ++ splitSegs vid ++ [name] =
      (dirname ++ ["uploads"] ++ splitSegs vid) ++ [name] by simp]
  exact normSegs_append_plain _ name h.1 h.2.1 h.2.2.1

theorem rmRecursive_idem (fs : FS) (p : FsPath) :
    rmRecursive (rmRecursive fs p) p = rmRecursive fs p := by
  simp [rmRecursive, List.filter_filter]

theorem getFrame_after_delete (fs : FS) (vid name : String) (h : plainSeg name) :
    getFrame (rmRecursive fs (videoDir vid)) vid name = .notFound := by
  unfold getFrame
  rw [if_neg]
  intro hmem
  simp only [rmRecursive, List.mem_filter, decide_eq_true_eq] at hmem
  refine hmem.2 ?_
  rw [framePath_plain vid name h]
  simp [List.isPrefixOf_iff_prefix]

theorem stagedPath_length (req : Request) (dl : DlResult) (dlName : String)
    (ha : acquired req dl) : (stagedPath req dlName).length = 3 := by
  rcases ha with ⟨hu, _⟩ | ⟨hu, hf⟩
  · simp [stagedPath, hu, tempDir, dirname]
  · obtain ⟨n, hn⟩ := Option.isSome_iff_exists.mp hf
    simp [stagedPath, hu, hn, tempDir, dirname]

/-!
## Claim theorems
-/

/-- C1: the GET /frames/:videoId/:frameName handler does not reject
path-traversal: a frameName of parent references resolves outside the
job's output directory and, when the target exists, the handler serves
its contents instead of answering 404. -/
theorem c1_traversal_resolves_outside :
    framePath "vid" "../../../etc/passwd" = ["etc", "passwd"] ∧
    ¬ uploadsRoot ++ ["vid"] <+: framePath "vid" "../../../etc/passwd" ∧
    getFrame ⟨[["etc", "passwd"]], [uploadsRoot ++ ["vid"]]⟩ "vid" "../../../etc/passwd" =
      .file ["etc", "passwd"] := by decide

/-- C2: when acquisition succeeded and the ffmpeg run fails, the handler
answers 500 and afterwards the allocated output directory is gone, no file
below it remains (partial frames rolled back), and the staged input video
has been unlinked. -/
theorem c2_extraction_failure_rollback (fs : FS) (req : Request) (dl : DlResult)
    (dlName vid msg : String) (leftover : List String)
    (hi : ¬ (effInterval req.interval < 1 ∨ effInterval req.interval > 60))
    (ha : acquired req dl) :
    (postExtractKeyframes fs req dl (.err msg leftover) dlName vid).1.status = 500 ∧
    uploadsRoot ++ [vid] ∉ (postExtractKeyframes fs req dl (.err msg leftover) dlName vid).2.dirs ∧
    (∀ p ∈ (postExtractKeyframes fs req dl (.err msg leftover) dlName vid).2.files,
      ¬ uploadsRoot ++ [vid] <+: p) ∧
    stagedPath req dlName ∉ (postExtractKeyframes fs req dl (.err msg leftover) dlName vid).2.files := by
  rw [postExtractKeyframes_acquired fs req dl _ dlName vid hi ha]
  refine ⟨rfl, ?_, ?_, ?_⟩
  · intro hd
    exact runExtraction_err_dirs _ _ _ _ _ _ hd (List.prefix_refl _)
  · intro p hp
    exact (runExtraction_err_files _ _ _ _ _ _ hp).1
  · intro hp
    exact (runExtraction_err_files _ _ _ _ _ _ hp).2 rfl

theorem c2_extraction_failure_rollback_witness :
    (postExtractKeyframes ⟨[], []⟩ ⟨some "5", none, some "up.mp4"⟩ .ok
        (.err "boom" ["frame_1.jpg"]) "d1" "v1").1.status = 500 ∧
    uploadsRoot ++ ["v1"] ∉ (postExtractKeyframes ⟨[], []⟩ ⟨some "5", none, some "up.mp4"⟩ .ok
        (.err "boom" ["frame_1.jpg"]) "d1" "v1").2.dirs ∧
    (∀ p ∈ (postExtractKeyframes ⟨[], []⟩ ⟨some "5", none, some "up.mp4"⟩ .ok
        (.err "boom" ["frame_1.jpg"]) "d1" "v1").2.files,
      ¬ uploadsRoot ++ ["v1"] <+: p) ∧
    stagedPath ⟨some "5", none, some "up.mp4"⟩ "d1" ∉
      (postExtractKeyframes ⟨[], []⟩ ⟨some "5", none, some "up.mp4"⟩ .ok
        (.err "boom" ["frame_1.jpg"]) "d1" "v1").2.files :=
  c2_extraction_failure_rollback ⟨[], []⟩ ⟨some "5", none, some "up.mp4"⟩ .ok
    "d1" "v1" "boom" ["frame_1.jpg"] (by decide) (by decide)

/-- C3 counterexample: a failed download has already created the staged
file, the handler answers 400, and the partially written file is still on
disk after the request completes — it is never cleaned up, because the
handler's videoPath variable was never assigned. -/
theorem c3_partial_download_not_cleaned :
    (postExtractKeyframes ⟨[], []⟩ ⟨some "5", some "http://host/v.mp4", none⟩
        (.fail "socket hang up") (.ok []) "dl1" "vid1").1.status = 400 ∧
    tempDir ++ ["dl1.mp4"] ∈
      (postExtractKeyframes ⟨[], []⟩ ⟨some "5", some "http://host/v.mp4", none⟩
        (.fail "socket hang up") (.ok []) "dl1" "vid1").2.files := by decide

/-- C3 (amended): on every exit path on which acquisition succeeded — the
handler's videoPath was assigned — the staged input video is deleted
before the request completes, whatever the extraction outcome. -/
theorem c3_staged_cleanup_after_acquisition (fs : FS) (req : Request) (dl : DlResult)
    (ex : ExResult) (dlName vid : String)
    (hi : ¬ (effInterval req.interval < 1 ∨ effInterval req.interval > 60))
    (ha : acquired req dl) :
    stagedPath req dlName ∉ (postExtractKeyframes fs req dl ex dlName vid).2.files := by
  rw [postExtractKeyframes_acquired fs req dl ex dlName vid hi ha]
  cases ex with
  | ok frames => exact runExtraction_ok_staged_gone _ _ _ _
  | err msg leftover => exact fun hp => (runExtraction_err_files _ _ _ _ _ _ hp).2 rfl

theorem c3_staged_cleanup_after_acquisition_witness :
    stagedPath ⟨none, some "http://host/v.mp4", none⟩ "dl1" ∉
      (postExtractKeyframes ⟨[], []⟩ ⟨none, some "http://host/v.mp4", none⟩ .ok
        (.ok ["frame_1.jpg"]) "dl1" "vid1").2.files :=
  c3_staged_cleanup_after_acquisition ⟨[], []⟩ ⟨none, some "http://host/v.mp4", none⟩ .ok
    (.ok ["frame_1.jpg"]) "dl1" "vid1" (by decide) (by decide)

/-- C4 counterexample: the present but malformed interval value "abc" is
not rejected: `parseInt` yields NaN, `|| 5` silently defaults it, the
request succeeds with status 200 and filesystem writes are performed. -/
theorem c4_malformed_interval_defaulted :
    effInterval (some "abc") = 5 ∧
    (postExtractKeyframes ⟨[], []⟩ ⟨some "abc", some "http://host/v.mp4", none⟩ .ok
        (.ok ["frame_1.jpg"]) "dl1" "vid1").1.status = 200 ∧
    (postExtractKeyframes ⟨[], []⟩ ⟨some "abc", some "http://host/v.mp4", none⟩ .ok
        (.ok ["frame_1.jpg"]) "dl1" "vid1").2.files ≠ [] := by decide

/-- C4 (amended): only an interval value that `parseInt` maps to a nonzero
integer outside [1, 60] is rejected with a 400 client error and no
filesystem effect; a present but unparseable value (and one parsing to 0)
is silently defaulted to 5, exactly as an absent field is. -/
theorem c4_out_of_range_interval_rejected (fs : FS) (req : Request) (dl : DlResult)
    (ex : ExResult) (dlName vid : String) (s : String) (v : Int)
    (hs : req.interval = some s) (hv : jsParseInt s = some v) (h0 : v ≠ 0)
    (hout : v < 1 ∨ 60 < v) :
    postExtractKeyframes fs req dl ex dlName vid =
      (errorResponse 400 "Interval must be between 1 and 60 seconds" none, fs) := by
  have he : effInterval req.interval = v := by
    rw [hs]
    simp [effInterval, hv, h0]
  unfold postExtractKeyframes
  rw [if_pos (by rw [he]; exact hout)]

theorem c4_out_of_range_interval_rejected_witness :
    postExtractKeyframes ⟨[], []⟩ ⟨some "61", some "http://host/v.mp4", none⟩ .ok
        (.ok ["frame_1.jpg"]) "dl1" "vid1" =
      (errorResponse 400 "Interval must be between 1 and 60 seconds" none, ⟨[], []⟩) :=
  c4_out_of_range_interval_rejected ⟨[], []⟩ ⟨some "61", some "http://host/v.mp4", none⟩ .ok
    (.ok ["frame_1.jpg"]) "dl1" "vid1" "61" 61 rfl (by decide) (by decide) (by decide)

/-- C5 counterexample: a failed download is answered with status 400, not
with the 500 the claim requires. -/
theorem c5_download_failure_not_500 :
    (postExtractKeyframes ⟨[], []⟩ ⟨none, some "http://host/v.mp4", none⟩
        (.fail "timeout of 60000ms exceeded") (.ok []) "dl1" "vid1").1.status = 400 ∧
    (postExtractKeyframes ⟨[], []⟩ ⟨none, some "http://host/v.mp4", none⟩
        (.fail "timeout of 60000ms exceeded") (.ok []) "dl1" "vid1").1.status ≠ 500 := by decide

/-- C5 (amended): a request whose download fails (after a valid interval)
is answered with a 400 client error whose body carries the error summary
and the underlying detail message; 500 is used for extraction failures. -/
theorem c5_acquisition_failure_client_error (fs : FS) (req : Request) (ex : ExResult)
    (dlName vid msg : String)
    (hi : ¬ (effInterval req.interval < 1 ∨ effInterval req.interval > 60))
    (hu : hasUrl req = true) :
    (postExtractKeyframes fs req (.fail msg) ex dlName vid).1 =
      errorResponse 400 "Failed to download video from URL" (some msg) := by
  simp [postExtractKeyframes, hi, hu]

theorem c5_acquisition_failure_client_error_witness :
    (postExtractKeyframes ⟨[], []⟩ ⟨none, some "http://host/v.mp4", none⟩
        (.fail "timeout of 60000ms exceeded") (.ok []) "dl1" "vid1").1 =
      errorResponse 400 "Failed to download video from URL"
        (some "timeout of 60000ms exceeded") :=
  c5_acquisition_failure_client_error ⟨[], []⟩ ⟨none, some "http://host/v.mp4", none⟩
    (.ok []) "dl1" "vid1" "timeout of 60000ms exceeded" (by decide) (by decide)

/-- C6: the frame extractor filters the directory listing to the
`frame_` naming scheme and orders it ascending by the embedded numeric
index: the result is sorted for `frameLe`, is a permutation of the
filtered listing, and on the files frame_2, frame_10, frame_1 in either
listing order it returns [frame_1, frame_2, frame_10]. -/
theorem c6_frame_ordering (files : List String)
    (hwf : ∀ f ∈ files, isFrameFile f = true → hasDigit f = true) :
    List.Sorted frameLe (sortFrameFiles files) ∧
    (sortFrameFiles files).Perm (files.filter isFrameFile) ∧
    sortFrameFiles ["frame_2.jpg", "frame_10.jpg", "frame_1.jpg"] =
      ["frame_1.jpg", "frame_2.jpg", "frame_10.jpg"] ∧
    sortFrameFiles ["frame_10.jpg", "frame_1.jpg", "frame_2.jpg"] =
      ["frame_1.jpg", "frame_2.jpg", "frame_10.jpg"] :=
  ⟨List.sorted_insertionSort frameLe _, List.perm_insertionSort frameLe _,
    by decide, by decide⟩

theorem c6_frame_ordering_witness :
    List.Sorted frameLe (sortFrameFiles ["frame_2.jpg", "frame_10.jpg", "frame_1.jpg"]) ∧
    (sortFrameFiles ["frame_2.jpg", "frame_10.jpg", "frame_1.jpg"]).Perm
      (["frame_2.jpg", "frame_10.jpg", "frame_1.jpg"].filter isFrameFile) ∧
    sortFrameFiles ["frame_2.jpg", "frame_10.jpg", "frame_1.jpg"] =
      ["frame_1.jpg", "frame_2.jpg", "frame_10.jpg"] ∧
    sortFrameFiles ["frame_10.jpg", "frame_1.jpg", "frame_2.jpg"] =
      ["frame_1.jpg", "frame_2.jpg", "frame_10.jpg"] :=
  c6_frame_ordering ["frame_2.jpg", "frame_10.jpg", "frame_1.jpg"] (by decide)

/-- C7: when the engine completes successfully with at most one frame,
the request succeeds with status 200 and an empty or singleton frame
list, not an error. -/
theorem c7_few_frames_success (fs : FS) (req : Request) (dl : DlResult)
    (dlName vid : String) (frames : List String)
    (hi : ¬ (effInterval req.interval < 1 ∨ effInterval req.interval > 60))
    (ha : acquired req dl) (hlen : frames.length ≤ 1) :
    (postExtractKeyframes fs req dl (.ok frames) dlName vid).1.status = 200 ∧
    (postExtractKeyframes fs req dl (.ok frames) dlName vid).1.success = true ∧
    ∃ urls, (postExtractKeyframes fs req dl (.ok frames) dlName vid).1.keyFrames = some urls ∧
      (postExtractKeyframes fs req dl (.ok frames) dlName vid).1.frameCount = some urls.length ∧
      urls.length ≤ 1 := by
  rw [postExtractKeyframes_acquired fs req dl _ dlName vid hi ha]
  refine ⟨rfl, rfl, (sortFrameFiles frames).map (frameUrl vid), rfl, rfl, ?_⟩
  have h1 : (sortFrameFiles frames).length ≤ frames.length := by
    unfold sortFrameFiles
    calc (List.insertionSort frameLe (frames.filter isFrameFile)).length
        = (frames.filter isFrameFile).length :=
          (List.perm_insertionSort frameLe _).length_eq
      _ ≤ frames.length := List.length_filter_le _ _
  simpa using h1.trans hlen

theorem c7_few_frames_success_witness :
    (postExtractKeyframes ⟨[], []⟩ ⟨none, none, some "up.mp4"⟩ .ok (.ok []) "dl1" "vid1").1.status = 200 ∧
    (postExtractKeyframes ⟨[], []⟩ ⟨none, none, some "up.mp4"⟩ .ok (.ok []) "dl1" "vid1").1.success = true ∧
    ∃ urls, (postExtractKeyframes ⟨[], []⟩ ⟨none, none, some "up.mp4"⟩ .ok
        (.ok []) "dl1" "vid1").1.keyFrames = some urls ∧
      (postExtractKeyframes ⟨[], []⟩ ⟨none, none, some "up.mp4"⟩ .ok
        (.ok []) "dl1" "vid1").1.frameCount = some urls.length ∧
      urls.length ≤ 1 :=
  c7_few_frames_success ⟨[], []⟩ ⟨none, none, some "up.mp4"⟩ .ok "dl1" "vid1" []
    (by decide) (by decide) (by decide)

/-- C8: after a successful extraction the staged input video has been
unlinked while the job's output directory and every produced frame file
below it still exist. -/
theorem c8_success_path_state (fs : FS) (req : Request) (dl : DlResult)
    (dlName vid : String) (frames : List String)
    (hi : ¬ (effInterval req.interval < 1 ∨ effInterval req.interval > 60))
    (ha : acquired req dl) :
    (postExtractKeyframes fs req dl (.ok frames) dlName vid).1.status = 200 ∧
    stagedPath req dlName ∉ (postExtractKeyframes fs req dl (.ok frames) dlName vid).2.files ∧
    uploadsRoot ++ [vid] ∈ (postExtractKeyframes fs req dl (.ok frames) dlName vid).2.dirs ∧
    ∀ f ∈ frames,
      (uploadsRoot ++ [vid]) ++ [f] ∈ (postExtractKeyframes fs req dl (.ok frames) dlName vid).2.files := by
  rw [postExtractKeyframes_acquired fs req dl _ dlName vid hi ha]
  refine ⟨rfl, runExtraction_ok_staged_gone _ _ _ _, ?_, ?_⟩
  · rw [runExtraction_ok_dirs]
    exact List.mem_cons_self _ _
  · intro f hf
    apply runExtraction_ok_frame_mem _ _ _ _ f hf
    intro he
    have hlen := stagedPath_length req dl dlName ha
    rw [← he] at hlen
    simp [uploadsRoot, dirname] at hlen

theorem c8_success_path_state_witness :
    (postExtractKeyframes ⟨[], []⟩ ⟨some "10", none, some "up.mp4"⟩ .ok
        (.ok ["frame_1.jpg", "frame_2.jpg"]) "dl1" "vid1").1.status = 200 ∧
    stagedPath ⟨some "10", none, some "up.mp4"⟩ "dl1" ∉
      (postExtractKeyframes ⟨[], []⟩ ⟨some "10", none, some "up.mp4"⟩ .ok
        (.ok ["frame_1.jpg", "frame_2.jpg"]) "dl1" "vid1").2.files ∧
    uploadsRoot ++ ["vid1"] ∈
      (postExtractKeyframes ⟨[], []⟩ ⟨some "10", none, some "up.mp4"⟩ .ok
        (.ok ["frame_1.jpg", "frame_2.jpg"]) "dl1" "vid1").2.dirs ∧
    ∀ f ∈ ["frame_1.jpg", "frame_2.jpg"],
      (uploadsRoot ++ ["vid1"]) ++ [f] ∈
        (postExtractKeyframes ⟨[], []⟩ ⟨some "10", none, some "up.mp4"⟩ .ok
          (.ok ["frame_1.jpg", "frame_2.jpg"]) "dl1" "vid1").2.files :=
  c8_success_path_state ⟨[], []⟩ ⟨some "10", none, some "up.mp4"⟩ .ok "dl1" "vid1"
    ["frame_1.jpg", "frame_2.jpg"] (by decide) (by decide)

/-- C9: DELETE /frames/:videoId always answers 200 {success:true}, also
for a nonexistent identifier; a second DELETE returns the same response
and state (idempotence); and a subsequent GET of any plain frame name
under that identifier answers not-found. -/
theorem c9_delete_idempotent_then_not_found (fs : FS) (vid name : String)
    (h : plainSeg name) :
    (deleteFrames fs vid).1.status = 200 ∧
    (deleteFrames fs vid).1.success = true ∧
    deleteFrames (deleteFrames fs vid).2 vid = deleteFrames fs vid ∧
    getFrame (deleteFrames fs vid).2 vid name = .notFound := by
  refine ⟨rfl, rfl, ?_, getFrame_after_delete fs vid name h⟩
  simp [deleteFrames, rmRecursive_idem]

theorem c9_delete_idempotent_then_not_found_witness :
    (deleteFrames ⟨[], []⟩ "missing").1.status = 200 ∧
    (deleteFrames ⟨[], []⟩ "missing").1.success = true ∧
    deleteFrames (deleteFrames ⟨[], []⟩ "missing").2 "missing" =
      deleteFrames ⟨[], []⟩ "missing" ∧
    getFrame (deleteFrames ⟨[], []⟩ "missing").2 "missing" "frame_1.jpg" = .notFound :=
  c9_delete_idempotent_then_not_found ⟨[], []⟩ "missing" "frame_1.jpg" (by decide)

/-- C10: DELETE /frames/:videoId applies no validation to videoId: the
identifier ".." joins and normalises to the server's own directory,
which is outside the uploads root, and the handler recursively removes
everything below it while still answering 200. -/
theorem c10_delete_escapes_output_root :
    videoDir ".." = dirname ∧
    ¬ uploadsRoot <+: videoDir ".." ∧
    (deleteFrames ⟨[dirname ++ ["server.js"]], [dirname ++ ["temp"], uploadsRoot]⟩ "..").1.status = 200 ∧
    (deleteFrames ⟨[dirname ++ ["server.js"]], [dirname ++ ["temp"], uploadsRoot]⟩ "..").2 =
      ⟨[], []⟩ := by decide

end VideoKeyframeApi
